import Mathlib

/-
Shallow embedding of `src/server.py` (Finance MCP Server, FastAPI backend).

The embedding covers the two core components the specification documents:
the news aggregation service (`NewsService`) and the retrying OpenAI client
wrapper (`RobustOpenAIClient`), plus the price endpoints and the AI-analysis
endpoint.  Network calls are modelled by passing the collaborator's outcome
(value returned, or exception raised) as an explicit argument; `datetime.now()`
is modelled by a `now : String` argument.  Python truthiness of the optional
string credentials is modelled by `pyTruthy`.
-/

-- ===================================================================
-- News data model (src/server.py, NewsService)
-- ===================================================================

/-- A formatted news article as built by `NewsService`
(dict with keys title/url/source/publishedAt/provider). -/
structure Article where
  title : String
  url : String
  source : String
  publishedAt : String
  provider : String
deriving DecidableEq, Repr

/-- Python truthiness of an optional string (`if not api_key:` is true
for `None` and for the empty string). -/
def pyTruthy : Option String → Bool
  | none => false
  | some s => !(s == "")

/-- `NewsService.get_fallback_news` (src/server.py lines 167-191):
the static 3-entry fallback list.  `now` stands for
`datetime.now().isoformat()`. -/
def get_fallback_news (now q : String) : List Article :=
  [ { title := "Latest market trends for " ++ q
    , url := "#", source := "Financial Times", publishedAt := now
    , provider := "fallback" }
  , { title := "Investment opportunities in " ++ q ++ " sector"
    , url := "#", source := "Bloomberg", publishedAt := now
    , provider := "fallback" }
  , { title := "Global market analysis and outlook"
    , url := "#", source := "Reuters", publishedAt := now
    , provider := "fallback" } ]

/-- A raw article dict from the NewsAPI JSON payload; each field is
optional because the code reads it with `dict.get(key, default)`. -/
structure RawArticle where
  title : Option String
  url : Option String
  sourceName : Option String
  publishedAt : Option String
deriving DecidableEq, Repr

/-- Outcome of the `requests.get` call in `get_newsapi_news`: either an
HTTP response (status code plus the optional `articles` key of the JSON
body), or a raised exception. -/
inductive NewsApiCall where
  | resp (status : Nat) (articles : Option (List RawArticle))
  | raises (msg : String)
deriving DecidableEq, Repr

/-- `NewsService.get_newsapi_news` (src/server.py lines 100-139).
`api_key` is the service's `self.api_key`; `call` is the outcome of the
network request.  Missing key, raised exception, or non-200 status all
yield `[]`; otherwise the first 5 raw articles are formatted. -/
def get_newsapi_news (api_key : Option String) (now q : String)
    (call : NewsApiCall) : List Article :=
  if pyTruthy api_key then
    match call with
    | .raises _ => []
    | .resp status articles? =>
      if status = 200 then
        ((articles?.getD []).take 5).map (fun a =>
          { title := a.title.getD "No title"
          , url := a.url.getD "#"
          , source := a.sourceName.getD "Unknown"
          , publishedAt := a.publishedAt.getD now
          , provider := "newsapi" })
      else []
  else []

/-- A raw item of `yf.Ticker(...).news`; fields read with `item.get`. -/
structure RawYahooItem where
  title : Option String
  link : Option String
deriving DecidableEq, Repr

/-- `NewsService.get_yahoo_finance_news` (src/server.py lines 141-165).
`call` is the outcome of reading `ticker.news` (a raised exception is
`.error`).  Exceptions and an empty news list yield `[]`; otherwise the
first 5 items are formatted. -/
def get_yahoo_finance_news (now q : String)
    (call : Except String (List RawYahooItem)) : List Article :=
  match call with
  | .error _ => []
  | .ok raw_news =>
    if raw_news = [] then []
    else
      (raw_news.take 5).map (fun item =>
        { title := item.title.getD "No title"
        , url := item.link.getD "#"
        , source := "Yahoo Finance"
        , publishedAt := now
        , provider := "yahoo" })

/-- The dedup loop of `NewsService.get_news` (src/server.py lines
215-223): walk the list, keeping an article only when its title has not
been seen yet. -/
def dedupAux : List Article → List String → List Article
  | [], _ => []
  | a :: rest, seen =>
    if a.title ∈ seen then dedupAux rest seen
    else a :: dedupAux rest (a.title :: seen)

/-- Title-based deduplication starting from an empty seen set. -/
def dedupByTitle (l : List Article) : List Article := dedupAux l []

/-- The source-filter selection of `NewsService.get_news` (src/server.py
lines 199-208): newsapi results when the filter is "all" or "newsapi",
then yahoo results when the filter is "all" or "yahoo". -/
def selectArticles (source : String) (na ya : List Article) : List Article :=
  (if source = "all" ∨ source = "newsapi" then na else []) ++
  (if source = "all" ∨ source = "yahoo" then ya else [])

/-- `NewsService.get_news` (src/server.py lines 193-226).  `na` and `ya`
are the lists returned by the two provider collaborators for this query.
Empty concatenation is replaced by the fallback list, then dedup by
title, then truncation to 8. -/
def get_news (now q source : String) (na ya : List Article) : List Article :=
  let articles := selectArticles source na ya
  let articles := if articles = [] then get_fallback_news now q else articles
  (dedupByTitle articles).take 8

-- ===================================================================
-- Substring containment (for the fallback-title claims)
-- ===================================================================

/-- `sub` occurs as a (contiguous) substring of `s`: its character list
is an infix of the character list of `s`. -/
def Substr (sub s : String) : Prop := sub.data <:+: s.data

instance (sub s : String) : Decidable (Substr sub s) := by
  unfold Substr; exact List.decidableInfix sub.data s.data

/-- Any string of the form `p ++ sub ++ r` contains `sub` as a substring. -/
theorem Substr_append (p sub r : String) : Substr sub (p ++ sub ++ r) := by
  refine ⟨p.data, r.data, ?_⟩
  simp [String.data_append]

/-- Any string of the form `p ++ sub` contains `sub` as a substring. -/
theorem Substr_append_right (p sub : String) : Substr sub (p ++ sub) := by
  refine ⟨p.data, [], ?_⟩
  simp [String.data_append]

/-- Two strings whose character lists start with different characters
are different. -/
theorem ne_of_data_head {s t : String} {c d : Char} {l m : List Char}
    (hs : s.data = c :: l) (ht : t.data = d :: m) (hcd : c ≠ d) : s ≠ t := by
  intro h
  subst h
  rw [hs] at ht
  injection ht with h1 _
  exact hcd h1

-- ===================================================================
-- Dedup lemmas
-- ===================================================================

theorem dedupAux_sublist (l : List Article) :
    ∀ seen, List.Sublist (dedupAux l seen) l := by
  induction l with
  | nil => intro seen; simp [dedupAux]
  | cons a rest ih =>
    intro seen
    simp only [dedupAux]
    split
    · exact List.Sublist.cons a (ih seen)
    · exact List.Sublist.cons₂ a (ih _)

theorem dedupAux_nodup (l : List Article) :
    ∀ seen, ((dedupAux l seen).map Article.title).Nodup ∧
      ∀ a ∈ dedupAux l seen, a.title ∉ seen := by
  induction l with
  | nil => intro seen; exact ⟨List.Pairwise.nil, by intro a h; cases h⟩
  | cons a rest ih =>
    intro seen
    simp only [dedupAux]
    split
    · rename_i hmem
      exact ih seen
    · rename_i hmem
      obtain ⟨hnd, hns⟩ := ih (a.title :: seen)
      constructor
      · rw [List.map_cons, List.nodup_cons]
        refine ⟨?_, hnd⟩
        intro hcontra
        obtain ⟨b, hb, hbt⟩ := List.mem_map.mp hcontra
        exact (hns b hb) (hbt ▸ List.mem_cons_self _ _)
      · intro b hb
        rcases List.mem_cons.mp hb with h | h
        · exact h ▸ hmem
        · intro hbs
          exact (hns b h) (List.mem_cons_of_mem _ hbs)

theorem dedupAux_filter (t : String) (l : List Article) :
    ∀ seen, (dedupAux l seen).filter (fun a => a.title == t) =
      if t ∈ seen then [] else (l.filter (fun a => a.title == t)).take 1 := by
  induction l with
  | nil => intro seen; simp [dedupAux]
  | cons a rest ih =>
    intro seen
    simp only [dedupAux]
    by_cases hmem : a.title ∈ seen
    · rw [if_pos hmem, ih seen]
      by_cases ht : t ∈ seen
      · simp [ht]
      · have hne : ¬ (a.title = t) := fun h => ht (h ▸ hmem)
        simp [ht, List.filter_cons, hne]
    · rw [if_neg hmem]
      by_cases hat : a.title = t
      · subst hat
        rw [List.filter_cons, List.filter_cons]
        simp only [beq_self_eq_true, if_pos, ih (a.title :: seen)]
        rw [if_pos (List.mem_cons_self _ _), if_neg hmem]
        simp
      · have hbeq : (a.title == t) = false := beq_eq_false_iff_ne.mpr hat
        rw [List.filter_cons, List.filter_cons, hbeq]
        simp only [Bool.false_eq_true, if_neg, ih (a.title :: seen)]
        by_cases ht : t ∈ seen
        · simp [ht, List.mem_cons]
        · have : ¬ t ∈ a.title :: seen := by
            intro h
            rcases List.mem_cons.mp h with h | h
            · exact hat h.symm
            · exact ht h
          simp [ht, this]

theorem dedupByTitle_cons (a : Article) (rest : List Article) :
    dedupByTitle (a :: rest) = a :: dedupAux rest [a.title] := by
  simp [dedupByTitle, dedupAux]

-- ===================================================================
-- RobustOpenAIClient (src/server.py lines 38-75)
-- ===================================================================

/-- Error surfaced by `chat_completion_with_retry`; each constructor
stands for one of the three distinct `HTTPException(500, ...)` raise
sites, with its distinct detail message (see `CCError.detail`). -/
inductive CCError where
  | clientMissing
  | aiError (msg : String)
  | maxRetriesExceeded
deriving DecidableEq, Repr

/-- The detail string of the `HTTPException(500, ...)` each error kind
carries in the source. -/
def CCError.detail : CCError → String
  | .clientMissing => "OpenAI client missing"
  | .aiError msg => "AI Error: " ++ msg
  | .maxRetriesExceeded => "Max retries exceeded"

/-- Outcome of one call to `self.client.chat.completions.create`:
a successful completion, or one of the three caught exception classes
(`APIConnectionError`/`requests.exceptions.ConnectionError`,
`RateLimitError`, any other `Exception`). -/
inductive AttemptOutcome where
  | success (result : String)
  | connError
  | rateLimit
  | otherError (msg : String)
deriving DecidableEq, Repr

deriving instance DecidableEq for Except

/-- Observable trace of one invocation of `chat_completion_with_retry`:
its result (or raised error), the seconds slept by `time.sleep` in
order, and the number of completion calls performed. -/
structure RetryTrace where
  result : Except CCError String
  sleeps : List Nat
  calls : Nat
deriving DecidableEq, Repr

/-- The `for attempt in range(self.max_retries)` loop of
`chat_completion_with_retry` (src/server.py lines 52-72), recursing over
the list of remaining attempt indices.  Falling off the list raises
"Max retries exceeded".  A connection error sleeps
`base_delay * 2 ** attempt`; a rate limit sleeps 60; any other error
re-raises on the last attempt (`attempt == max_retries - 1`) and
otherwise sleeps the exponential delay. -/
def retryLoop (base maxR : Nat) (outs : Nat → AttemptOutcome) :
    List Nat → RetryTrace
  | [] => { result := .error .maxRetriesExceeded, sleeps := [], calls := 0 }
  | attempt :: rest =>
    match outs attempt with
    | .success r => { result := .ok r, sleeps := [], calls := 1 }
    | .connError =>
      let t := retryLoop base maxR outs rest
      { result := t.result, sleeps := base * 2 ^ attempt :: t.sleeps
      , calls := t.calls + 1 }
    | .rateLimit =>
      let t := retryLoop base maxR outs rest
      { result := t.result, sleeps := 60 :: t.sleeps, calls := t.calls + 1 }
    | .otherError msg =>
      if attempt = maxR - 1 then
        { result := .error (.aiError msg), sleeps := [], calls := 1 }
      else
        let t := retryLoop base maxR outs rest
        { result := t.result, sleeps := base * 2 ^ attempt :: t.sleeps
        , calls := t.calls + 1 }

/-- `RobustOpenAIClient.__init__` (src/server.py lines 39-46): a falsy
`api_key` leaves `self.client = None` (and returns before setting the
retry fields, which are then never read); otherwise the OpenAI client is
built with `max_retries = 3` and `base_delay = 1`. -/
structure RobustOpenAIClient where
  hasClient : Bool
  max_retries : Nat
  base_delay : Nat
deriving DecidableEq, Repr

def RobustOpenAIClient.init (api_key : Option String) : RobustOpenAIClient :=
  { hasClient := pyTruthy api_key, max_retries := 3, base_delay := 1 }

/-- `RobustOpenAIClient.chat_completion_with_retry` (src/server.py lines
48-72).  `outs attempt` is the outcome of the completion call on that
attempt.  With no client it raises immediately without any call or
sleep; otherwise it runs the retry loop over attempts
`0 .. max_retries - 1`. -/
def chat_completion_with_retry (c : RobustOpenAIClient)
    (outs : Nat → AttemptOutcome) : RetryTrace :=
  if c.hasClient then
    retryLoop c.base_delay c.max_retries outs (List.range c.max_retries)
  else
    { result := .error .clientMissing, sleeps := [], calls := 0 }

-- ===================================================================
-- Price endpoints (src/server.py lines 246-280)
-- ===================================================================

/-- An HTTP error response: status code and detail string. -/
structure HTTPError where
  status : Nat
  detail : String
deriving DecidableEq, Repr

/-- A Python exception value as far as the price endpoints observe it:
either a `fastapi.HTTPException` (status code + detail) or any other
exception carrying a message. -/
inductive PyExc where
  | http (status : Nat) (detail : String)
  | other (msg : String)
deriving DecidableEq, Repr

/-- `str(e)` for the modelled exceptions: starlette's `HTTPException`
renders as "status_code: detail". -/
def PyExc.str : PyExc → String
  | .http s d => toString s ++ ": " ++ d
  | .other m => m

/-- Outcome of an external data fetch: a value, or a raised exception. -/
inductive Fetch (α : Type) where
  | value (a : α)
  | raises (msg : String)
deriving DecidableEq, Repr

/-- The `ticker.history(period="1d")` result: emptiness flag, last close
price (numeric payload, modelled as `Int`), last index timestamp. -/
structure HistData where
  empty : Bool
  close : Int
  ts : String
deriving DecidableEq, Repr

/-- The successful JSON body of a price endpoint. -/
structure PriceResp where
  symbol : String
  price : Int
  timestamp : String
deriving DecidableEq, Repr

/-- The `try:` body of the `stock_price` endpoint (src/server.py lines
248-259): empty history raises `HTTPException(400, "Invalid stock
symbol")`; otherwise the price response is built. -/
def stock_price_try (symbol : String) (hist : Fetch HistData) :
    Except PyExc PriceResp :=
  match hist with
  | .raises m => .error (.other m)
  | .value d =>
    if d.empty then .error (.http 400 "Invalid stock symbol")
    else .ok { symbol := symbol.toUpper, price := d.close, timestamp := d.ts }

/-- The `stock_price` endpoint (src/server.py lines 246-262).  The
blanket `except Exception` catches every exception raised in the body —
including the `HTTPException(400, ...)` itself, since `HTTPException`
subclasses `Exception` — and re-raises `HTTPException(500, "Stock price
error: " + str(e))`. -/
def stock_price (symbol : String) (hist : Fetch HistData) :
    Except HTTPError PriceResp :=
  match stock_price_try symbol hist with
  | .ok r => .ok r
  | .error e => .error { status := 500, detail := "Stock price error: " ++ e.str }

/-- The `try:` body of the `crypto_price` endpoint (src/server.py lines
266-277): `resp` is the Binance JSON body, `.value none` meaning the
"price" key is absent.  `now` stands for `datetime.now().isoformat()`. -/
def crypto_price_try (symbol now : String) (resp : Fetch (Option Int)) :
    Except PyExc PriceResp :=
  match resp with
  | .raises m => .error (.other m)
  | .value none => .error (.http 400 "Invalid crypto symbol")
  | .value (some p) =>
    .ok { symbol := symbol.toUpper, price := p, timestamp := now }

/-- The `crypto_price` endpoint (src/server.py lines 264-280), with the
same blanket `except Exception` re-raise as `stock_price`. -/
def crypto_price (symbol now : String) (resp : Fetch (Option Int)) :
    Except HTTPError PriceResp :=
  match crypto_price_try symbol now resp with
  | .ok r => .ok r
  | .error e => .error { status := 500, detail := "Crypto error: " ++ e.str }

-- ===================================================================
-- ai_analysis endpoint (src/server.py lines 307-347)
-- ===================================================================

/-- Python's `str.strip()`: remove leading and trailing whitespace
(whitespace as recognised by `Char.isWhitespace`). -/
def pyStrip (s : String) : String :=
  ⟨((s.data.dropWhile Char.isWhitespace).reverse.dropWhile
      Char.isWhitespace).reverse⟩

/-- Observable outcome of the `ai_analysis` endpoint: the response text
and how many calls to the completion client were made. -/
structure AIOutcome where
  response : String
  clientCalls : Nat
deriving DecidableEq, Repr

/-- The three dummy fallback responses of `ai_analysis` (src/server.py
lines 335-339), indexed by the `random.choice` pick. -/
def dummy_responses (p : String) : Fin 3 → String
  | 0 => "📊 **Financial Analysis Report**\n\n**Your Query:** " ++ p ++
      "\n\nBased on current market data, I recommend monitoring key indicators and consulting with a financial advisor for personalized advice."
  | 1 => "🤖 **AI Financial Insights**\n\n**Topic:** " ++ p ++
      "\n\nMarket trends show moderate volatility. Consider diversifying your portfolio and maintaining a long-term perspective."
  | 2 => "💡 **Investment Analysis**\n\n**Request:** " ++ p ++
      "\n\nCurrent analysis suggests careful monitoring of market conditions. Technical indicators show neutral to positive momentum."

/-- The `ai_analysis` endpoint (src/server.py lines 307-347).
`openai_key` is the module-level `OPENAI_API_KEY`; `completion` is what
`chat_completion_with_retry` would produce for the prompt (`.error`
meaning it raised, which the inner `except` absorbs, falling through to
the dummy response); `choice` is the `random.choice` pick.  A prompt
that is empty or whitespace-only returns the fixed validation message
without touching the client. -/
def ai_analysis (openai_key : Option String) (prompt : String)
    (completion : Except CCError String) (choice : Fin 3) : AIOutcome :=
  if prompt = "" ∨ pyStrip prompt = "" then
    { response := "❌ Please enter a valid financial question or analysis request."
    , clientCalls := 0 }
  else
    let prompt_text := pyStrip prompt
    if pyTruthy openai_key then
      match completion with
      | .ok analysis => { response := analysis, clientCalls := 1 }
      | .error _ =>
        { response := dummy_responses prompt_text choice, clientCalls := 1 }
    else
      { response := dummy_responses prompt_text choice, clientCalls := 0 }

-- ===================================================================
-- Shared helper lemmas
-- ===================================================================

/-- The first fallback title differs from the second for every query. -/
theorem fallback_title_ne_12 (q : String) :
    ("Latest market trends for " ++ q) ≠
      ("Investment opportunities in " ++ q ++ " sector") :=
  ne_of_data_head rfl rfl (by decide)

/-- The first fallback title differs from the third for every query. -/
theorem fallback_title_ne_13 (q : String) :
    ("Latest market trends for " ++ q) ≠
      "Global market analysis and outlook" :=
  ne_of_data_head rfl rfl (by decide)

/-- The second fallback title differs from the third for every query. -/
theorem fallback_title_ne_23 (q : String) :
    ("Investment opportunities in " ++ q ++ " sector") ≠
      "Global market analysis and outlook" :=
  ne_of_data_head rfl rfl (by decide)

/-- Deduplicating the fallback list leaves it unchanged: its three
titles are pairwise distinct for every query. -/
theorem dedupByTitle_fallback (now q : String) :
    dedupByTitle (get_fallback_news now q) = get_fallback_news now q := by
  unfold get_fallback_news dedupByTitle
  simp [dedupAux, (fallback_title_ne_12 q).symm, (fallback_title_ne_13 q).symm,
    (fallback_title_ne_23 q).symm]

/-- With both provider contributions empty, `get_news` returns exactly
the fallback list, for every source filter. -/
theorem get_news_empty_providers (now q source : String) :
    get_news now q source [] [] = get_fallback_news now q := by
  show (dedupByTitle (if selectArticles source [] [] = []
      then get_fallback_news now q
      else selectArticles source [] [])).take 8 = get_fallback_news now q
  have hsel : selectArticles source [] [] = [] := by
    unfold selectArticles; simp
  rw [hsel, if_pos rfl, dedupByTitle_fallback]
  rfl

/-- An eight-element truncation of a non-empty list is non-empty. -/
theorem take_eight_ne_nil {α : Type} {l : List α} (h : l ≠ []) :
    l.take 8 ≠ [] := by
  have h1 : 0 < l.length := List.length_pos.mpr h
  have h2 : 0 < (l.take 8).length := by
    rw [List.length_take]; omega
  exact List.length_pos.mp h2

/-- Deduplication of a non-empty list is non-empty (the first article
is always kept). -/
theorem dedupByTitle_ne_nil {l : List Article} (h : l ≠ []) :
    dedupByTitle l ≠ [] := by
  cases l with
  | nil => exact absurd rfl h
  | cons a rest =>
    rw [dedupByTitle_cons]
    exact List.cons_ne_nil _ _

-- ===================================================================
-- Claim theorems
-- ===================================================================

/-- C1 (counterexample): the claim "each of the 3 fallback articles'
titles contains the original query string" is false.  At query "stocks"
with both providers returning empty, the third returned article's title
is the fixed string "Global market analysis and outlook", which does not
contain "stocks". -/
theorem C1_counterexample :
    ¬ ∀ a ∈ get_news "T" "stocks" "all" [] [], Substr "stocks" a.title := by
  intro h
  exact absurd
    (h { title := "Global market analysis and outlook", url := "#"
       , source := "Reuters", publishedAt := "T", provider := "fallback" }
      (by decide))
    (by decide)

/-- C1 (amended): for every query and source filter, when both provider
collaborators contribute nothing, `get_news` returns exactly the 3
fallback articles, all tagged `provider = "fallback"`; the titles of the
first two contain the original query string, and the third title is the
fixed string "Global market analysis and outlook" (which does not
interpolate the query). -/
theorem C1_fallback_articles (now q source : String) :
    get_news now q source [] [] = get_fallback_news now q ∧
    (get_fallback_news now q).map Article.provider =
      ["fallback", "fallback", "fallback"] ∧
    (get_fallback_news now q).map Article.title =
      ["Latest market trends for " ++ q,
       "Investment opportunities in " ++ q ++ " sector",
       "Global market analysis and outlook"] ∧
    Substr q ("Latest market trends for " ++ q) ∧
    Substr q ("Investment opportunities in " ++ q ++ " sector") :=
  ⟨get_news_empty_providers now q source, rfl, rfl,
    Substr_append_right "Latest market trends for " q,
    Substr_append "Investment opportunities in " q " sector"⟩

/-- C2 (code bug): an unknown symbol is intended to produce the client
error `HTTPException(400, ...)`, but that exception is raised inside the
endpoint's `try:` block, caught by the blanket `except Exception`, and
re-raised as a generic 500 — so both price endpoints answer an invalid
symbol with status 500, not 400. -/
theorem C2_invalid_symbol_is_500 :
    stock_price "FAKESYM" (.value { empty := true, close := 0, ts := "t0" }) =
      .error { status := 500
             , detail := "Stock price error: 400: Invalid stock symbol" } ∧
    crypto_price "FAKE" "t0" (.value none) =
      .error { status := 500
             , detail := "Crypto error: 400: Invalid crypto symbol" } :=
  ⟨rfl, rfl⟩

/-- C3: with a configured credential and connection errors on all 3
attempts, the wrapper fails with the terminal "Max retries exceeded"
error after sleeping `base_delay * 1`, `base_delay * 2`, `base_delay * 4`
seconds, in that order, having made 3 completion calls. -/
theorem C3_conn_errors_exhaust_retries (key : String) (hkey : key ≠ "")
    (outs : Nat → AttemptOutcome)
    (h0 : outs 0 = .connError) (h1 : outs 1 = .connError)
    (h2 : outs 2 = .connError) :
    chat_completion_with_retry (.init (some key)) outs =
      { result := .error .maxRetriesExceeded
      , sleeps := [(RobustOpenAIClient.init (some key)).base_delay * 1,
                   (RobustOpenAIClient.init (some key)).base_delay * 2,
                   (RobustOpenAIClient.init (some key)).base_delay * 4]
      , calls := 3 } := by
  have hc : (RobustOpenAIClient.init (some key)).hasClient = true := by
    simp [RobustOpenAIClient.init, pyTruthy, hkey]
  unfold chat_completion_with_retry
  simp only [hc, if_true]
  have heval : retryLoop 1 3 outs [0, 1, 2] =
      { result := .error .maxRetriesExceeded
      , sleeps := [1 * 2 ^ 0, 1 * 2 ^ 1, 1 * 2 ^ 2], calls := 3 } := by
    simp [retryLoop, h0, h1, h2]
  exact heval

/-- C3 witness: the theorem applied to a concrete client and outcome
sequence. -/
theorem C3_conn_errors_exhaust_retries_witness :
    ("k" : String) ≠ "" ∧
    chat_completion_with_retry (.init (some "k")) (fun _ => .connError) =
      { result := .error .maxRetriesExceeded, sleeps := [1, 2, 4]
      , calls := 3 } :=
  ⟨by decide,
    C3_conn_errors_exhaust_retries "k" (by decide) (fun _ => .connError)
      rfl rfl rfl⟩

/-- C4: with a configured credential, rate-limit errors on the first two
attempts and success on the third, the wrapper returns the successful
result having performed exactly 2 waits of the fixed 60-second cooldown
(and 3 completion calls). -/
theorem C4_rate_limit_cooldowns (key : String) (hkey : key ≠ "")
    (r : String) (outs : Nat → AttemptOutcome)
    (h0 : outs 0 = .rateLimit) (h1 : outs 1 = .rateLimit)
    (h2 : outs 2 = .success r) :
    chat_completion_with_retry (.init (some key)) outs =
      { result := .ok r, sleeps := [60, 60], calls := 3 } := by
  have hc : (RobustOpenAIClient.init (some key)).hasClient = true := by
    simp [RobustOpenAIClient.init, pyTruthy, hkey]
  unfold chat_completion_with_retry
  simp only [hc, if_true]
  have heval : retryLoop 1 3 outs [0, 1, 2] =
      { result := .ok r, sleeps := [60, 60], calls := 3 } := by
    simp [retryLoop, h0, h1, h2]
  exact heval

/-- C4 witness: the theorem applied to a concrete client and outcome
sequence. -/
theorem C4_rate_limit_cooldowns_witness :
    ("k" : String) ≠ "" ∧
    chat_completion_with_retry (.init (some "k"))
        (fun n => if n = 2 then .success "done" else .rateLimit) =
      { result := .ok "done", sleeps := [60, 60], calls := 3 } :=
  ⟨by decide,
    C4_rate_limit_cooldowns "k" (by decide) "done"
      (fun n => if n = 2 then .success "done" else .rateLimit) rfl rfl rfl⟩

/-- C5: a client constructed without an API credential fails immediately
with the dedicated client-missing error, performing zero completion
calls and zero sleeps; that error is a constructor distinct from the
per-attempt/runtime error kinds, with its own detail message. -/
theorem C5_missing_credential (outs : Nat → AttemptOutcome) :
    chat_completion_with_retry (.init none) outs =
      { result := .error .clientMissing, sleeps := [], calls := 0 } ∧
    CCError.clientMissing ≠ .maxRetriesExceeded ∧
    (∀ m, CCError.clientMissing ≠ .aiError m) ∧
    CCError.clientMissing.detail = "OpenAI client missing" :=
  ⟨rfl, by decide, fun m h => CCError.noConfusion h, rfl⟩

/-- C6: when the filter is "all", provider articles with duplicate
titles are deduplicated: the result of `get_news` is the stable dedup of
the concatenation (newsapi results before yahoo results) truncated to 8;
the deduplicated list has pairwise-distinct titles, is a sublist of the
concatenation (so first-seen order is preserved), and for every title
the article kept is exactly the first occurrence of that title in the
concatenation. -/
theorem C6_dedup_first_seen (now q : String) (na ya : List Article)
    (hdup : ¬ ((na ++ ya).map Article.title).Nodup) :
    get_news now q "all" na ya = (dedupByTitle (na ++ ya)).take 8 ∧
    ((dedupByTitle (na ++ ya)).map Article.title).Nodup ∧
    List.Sublist (dedupByTitle (na ++ ya)) (na ++ ya) ∧
    ∀ t, (dedupByTitle (na ++ ya)).filter (fun a => a.title == t) =
      ((na ++ ya).filter (fun a => a.title == t)).take 1 := by
  have hne : na ++ ya ≠ [] := by
    intro h
    apply hdup
    rw [h]
    exact List.Pairwise.nil
  refine ⟨?_, (dedupAux_nodup (na ++ ya) []).1, dedupAux_sublist (na ++ ya) [], ?_⟩
  · show (dedupByTitle (if selectArticles "all" na ya = []
        then get_fallback_news now q
        else selectArticles "all" na ya)).take 8 = _
    have hsel : selectArticles "all" na ya = na ++ ya := by
      unfold selectArticles
      rw [if_pos (Or.inl rfl), if_pos (Or.inl rfl)]
    rw [hsel, if_neg hne]
  · intro t
    have h := dedupAux_filter t (na ++ ya) []
    rw [if_neg (List.not_mem_nil t)] at h
    exact h

/-- C6 witness: the theorem applied to concrete provider lists with a
duplicated title across the two providers. -/
theorem C6_dedup_first_seen_witness :
    (¬ ((([ { title := "Dup", url := "u1", source := "s1"
            , publishedAt := "t1", provider := "newsapi" } ] ++
          [ { title := "Dup", url := "u2", source := "s2"
            , publishedAt := "t2", provider := "yahoo" } ]
          : List Article)).map Article.title).Nodup) ∧
    get_news "T" "q" "all"
        [ { title := "Dup", url := "u1", source := "s1"
          , publishedAt := "t1", provider := "newsapi" } ]
        [ { title := "Dup", url := "u2", source := "s2"
          , publishedAt := "t2", provider := "yahoo" } ] =
      [ { title := "Dup", url := "u1", source := "s1"
        , publishedAt := "t1", provider := "newsapi" } ] := by
  constructor
  · decide
  · have h := (C6_dedup_first_seen "T" "q"
      [ { title := "Dup", url := "u1", source := "s1"
        , publishedAt := "t1", provider := "newsapi" } ]
      [ { title := "Dup", url := "u2", source := "s2"
        , publishedAt := "t2", provider := "yahoo" } ] (by decide)).1
    rw [h]
    decide

/-- C7: for every query, source filter and pair of provider results,
`get_news` returns at most 8 articles, and is literally the truncation
to 8 of the deduplicated (fallback-substituted) article list — i.e.
deduplication happens before truncation. -/
theorem C7_truncation_after_dedup (now q source : String)
    (na ya : List Article) :
    (get_news now q source na ya).length ≤ 8 ∧
    get_news now q source na ya =
      (dedupByTitle (if selectArticles source na ya = []
        then get_fallback_news now q
        else selectArticles source na ya)).take 8 := by
  refine ⟨?_, rfl⟩
  show ((dedupByTitle (if selectArticles source na ya = []
      then get_fallback_news now q
      else selectArticles source na ya)).take 8).length ≤ 8
  rw [List.length_take]
  exact min_le_left _ _

/-- C8: each news provider collaborator caps its contribution at 5
articles, and each modelled failure (raised exception, non-200 status,
provider error) yields the empty list rather than propagating. -/
theorem C8_provider_caps (api_key : Option String) (now q msg : String)
    (status : Nat) (arts : Option (List RawArticle))
    (callN : NewsApiCall) (callY : Except String (List RawYahooItem))
    (hstatus : status ≠ 200) :
    (get_newsapi_news api_key now q callN).length ≤ 5 ∧
    (get_yahoo_finance_news now q callY).length ≤ 5 ∧
    get_newsapi_news api_key now q (.raises msg) = [] ∧
    get_newsapi_news api_key now q (.resp status arts) = [] ∧
    get_yahoo_finance_news now q (.error msg) = [] := by
  refine ⟨?_, ?_, ?_, ?_, rfl⟩
  · unfold get_newsapi_news
    cases hk : pyTruthy api_key with
    | false => simp
    | true =>
      simp only [if_true]
      cases callN with
      | raises m => simp
      | resp st a =>
        by_cases hst : st = 200
        · simp [hst, List.length_map, List.length_take]
        · simp [hst]
  · unfold get_yahoo_finance_news
    cases callY with
    | error m => simp
    | ok raw =>
      by_cases hraw : raw = []
      · simp [hraw]
      · simp [hraw, List.length_map, List.length_take]
  · unfold get_newsapi_news
    cases hk : pyTruthy api_key <;> simp
  · unfold get_newsapi_news
    cases hk : pyTruthy api_key <;> simp [hstatus]

/-- C8 witness: the theorem applied to concrete arguments (status 404
for the non-200 case). -/
theorem C8_provider_caps_witness :
    (404 : Nat) ≠ 200 ∧
    ((get_newsapi_news (some "K") "T" "q"
        (.resp 200 (some [ { title := some "t", url := none
                           , sourceName := none, publishedAt := none } ]))).length ≤ 5 ∧
     (get_yahoo_finance_news "T" "q" (.ok [])).length ≤ 5 ∧
     get_newsapi_news (some "K") "T" "q" (.raises "boom") = [] ∧
     get_newsapi_news (some "K") "T" "q" (.resp 404 none) = [] ∧
     get_yahoo_finance_news "T" "q" (.error "boom") = []) :=
  ⟨by decide,
    C8_provider_caps (some "K") "T" "q" "boom" 404 none
      (.resp 200 (some [ { title := some "t", url := none
                         , sourceName := none, publishedAt := none } ]))
      (.ok []) (by decide)⟩

/-- C9: for every query, source filter (including filters matching no
provider) and provider results, `get_news` returns a non-empty list:
when nothing is contributed the fallback is substituted, and dedup and
truncation both preserve non-emptiness. -/
theorem C9_never_empty (now q source : String) (na ya : List Article) :
    get_news now q source na ya ≠ [] := by
  show (dedupByTitle (if selectArticles source na ya = []
      then get_fallback_news now q
      else selectArticles source na ya)).take 8 ≠ []
  apply take_eight_ne_nil
  apply dedupByTitle_ne_nil
  by_cases h : selectArticles source na ya = []
  · rw [if_pos h]
    unfold get_fallback_news
    exact List.cons_ne_nil _ _
  · rw [if_neg h]
    exact h

/-- C10: a prompt that is empty or consists only of whitespace makes
`ai_analysis` return the fixed validation message and perform zero
completion-client calls, for every key configuration and completion
outcome. -/
theorem C10_blank_prompt_validation (openai_key : Option String)
    (prompt : String) (completion : Except CCError String) (choice : Fin 3)
    (h : pyStrip prompt = "") :
    ai_analysis openai_key prompt completion choice =
      { response := "❌ Please enter a valid financial question or analysis request."
      , clientCalls := 0 } := by
  unfold ai_analysis
  rw [if_pos (Or.inr h)]

/-- C10 witness: the theorem applied to a whitespace-only prompt. -/
theorem C10_blank_prompt_validation_witness :
    pyStrip "   " = "" ∧
    ai_analysis (some "K") "   " (.ok "text") 0 =
      { response := "❌ Please enter a valid financial question or analysis request."
      , clientCalls := 0 } :=
  ⟨by decide, C10_blank_prompt_validation (some "K") "   " (.ok "text") 0 (by decide)⟩
